import Mathlib

/-
Verification development for the KMS display-pipeline state model and commit
engine of intel-gpu-tools (lib/igt_kms.c) and the pipe-CRC capture support.

The embedding below is a shallow model of the C code: structs become Lean
structures, the fixed-size plane/pipe/output arrays become lists, machine
integers become Nat/Int (with explicit truncation where the C truncates),
driver (ioctl) interactions are abstracted into a `Driver` record of response
functions, and each `igt_assert` becomes an explicit `aborted`/`none` outcome.
Driver calls issued by the commit engine are logged in order, each tagged with
whether its return value is checked via the CHECK_RETURN macro.
-/

namespace IgtKms

/-- Commit styles, from enum igt_commit_style in igt_kms.h:
COMMIT_LEGACY, COMMIT_UNIVERSAL, COMMIT_ATOMIC. -/
inductive CommitStyle
  | legacy
  | universal
  | atomic
  deriving DecidableEq, Repr

/-- A framebuffer reference (struct igt_fb): opaque id/handle plus
width/height metadata. Owned by test code, referenced by planes. -/
structure Fb where
  fb_id : Nat
  gem_handle : Nat
  width : Nat
  height : Nat
  deriving DecidableEq, Repr

/-- A plane (igt_plane_t). `fb = none` models a NULL framebuffer pointer.
`has_drm_plane` models `plane->drm_plane != NULL`; `supports_rotation`
abstracts igt_plane_supports_rotation (a capability probed from the driver's
property list, via the header's inline helper which is not part of the
translated sources). Source rectangle fields are uint32_t in C (kept as Nat),
destination x/y are int32_t (kept as Int). -/
structure Plane where
  index : Nat
  is_primary : Bool
  is_cursor : Bool
  has_drm_plane : Bool
  drm_plane_id : Nat
  supports_rotation : Bool
  rotation_property : Nat
  fb : Option Fb
  rotation : Nat
  src_x : Nat
  src_y : Nat
  src_w : Nat
  src_h : Nat
  crtc_x : Int
  crtc_y : Int
  crtc_w : Nat
  crtc_h : Nat
  fb_changed : Bool
  position_changed : Bool
  size_changed : Bool
  rotation_changed : Bool
  deriving DecidableEq, Repr

/-- A pipe/CRTC (igt_pipe_t). The fixed-capacity plane array together with
`n_planes` is modelled as the list `planes` (length = n_planes). -/
structure Pipe where
  pipe : Nat
  crtc_id : Nat
  enabled : Bool
  planes : List Plane
  mode_changed : Bool
  mode_blob : Nat
  background : Nat
  background_changed : Bool
  background_property : Nat
  degamma_property : Nat
  ctm_property : Nat
  gamma_property : Nat
  degamma_blob : Nat
  ctm_blob : Nat
  gamma_blob : Nat
  color_mgmt_changed : Bool
  deriving DecidableEq, Repr

/-- pipe->n_planes: the number of populated plane slots. -/
def Pipe.n_planes (p : Pipe) : Nat := p.planes.length

/-- The connector configuration (struct kmstest_connector_config) held inside
an output. `pipe = none` models PIPE_NONE; `connector` models whether
config->connector is non-NULL. The two dirty flags (pipe_changed,
connector_scaling_mode_changed) live inside this struct in the C code and are
not touched when the resolved part is recomputed. `default_mode` is an
abstract token standing for the drmModeModeInfo value. -/
structure OutputConfig where
  connector : Bool
  pipe : Option Nat
  crtc_id : Nat
  default_mode : Nat
  connector_scaling_mode : Nat
  connector_scaling_mode_changed : Bool
  pipe_changed : Bool
  deriving DecidableEq, Repr

/-- An output/connector (igt_output_t). -/
structure Output where
  id : Nat
  pending_crtc_idx_mask : Nat
  use_override_mode : Bool
  override_mode : Nat
  config : OutputConfig
  deriving DecidableEq, Repr

/-- The display (igt_display_t): owns the pipes and outputs.
n_pipes/n_outputs are the list lengths. -/
structure Display where
  pipes : List Pipe
  outputs : List Output
  pipes_in_use : Nat
  is_atomic : Bool
  deriving DecidableEq, Repr

/-! ## Driver boundary -/

/-- One driver (ioctl) call issued by the commit engine. -/
inductive DriverCall
  | setProperty (obj_id prop_id value : Nat)
  | setPlane (plane_id crtc_id fb_id : Nat) (crtc_x crtc_y : Int)
      (crtc_w crtc_h src_x src_y src_w src_h : Nat)
  | setCursor (crtc_id gem_handle w h : Nat)
  | moveCursor (crtc_id : Nat) (x y : Int)
  | setCrtc (crtc_id fb_id : Nat) (x y : Nat) (connectors : List Nat)
      (mode : Option Nat)
  | atomicCommit (flags : Nat)
  deriving DecidableEq, Repr

/-- A logged driver call; `checked` records whether the call's return value
goes through CHECK_RETURN (property writes via igt_crtc_set_property discard
their return value and are logged unchecked). -/
structure LoggedCall where
  call : DriverCall
  checked : Bool
  deriving DecidableEq, Repr

/-- The resolved part of a connector configuration, as recomputed by
_kmstest_connector_config for a given (connector id, allowed crtc mask)
pair. The concrete values come from hardware, so the model lets the driver
choose them. -/
structure ResolvedConfig where
  connector : Bool
  pipe : Option Nat
  crtc_id : Nat
  default_mode : Nat
  deriving DecidableEq, Repr

/-- The abstract driver: return codes for issued calls, connector-config
resolution, and property-blob management results (create/destroy are
igt_assert-ed in igt_pipe_replace_blob, so a false flag aborts). -/
structure Driver where
  ret : DriverCall → Int
  resolve : Nat → Nat → ResolvedConfig
  destroy_blob_ok : Bool
  create_blob_ok : Bool
  next_blob_id : Nat

/-- Outcome of a commit-engine function: either an igt_assert fired after
issuing `calls` (aborting the test), or the function returned `ret` with the
updated state, having issued `calls`. -/
inductive CommitOut (σ : Type)
  | aborted (calls : List LoggedCall)
  | done (ret : Int) (st : σ) (calls : List LoggedCall)
  deriving DecidableEq, Repr

/-- DRM atomic-commit flag bits (drm_mode.h). -/
def DRM_MODE_ATOMIC_TEST_ONLY : Nat := 0x0100

def DRM_MODE_ATOMIC_NONBLOCK : Nat := 0x0200

def DRM_MODE_ATOMIC_ALLOW_MODESET : Nat := 0x0400

/-- IGT_FIXED(d,f) = ((d) << 16 | (f)), truncated to uint32_t when stored. -/
def IGT_FIXED (d f : Nat) : Nat := ((d <<< 16) ||| f) % 2 ^ 32

/-! ## Pure model accessors and mutators (igt_kms.c) -/

/-- igt_plane_get_fb_id: the bound framebuffer's id, or 0 when NULL. -/
def igt_plane_get_fb_id (p : Plane) : Nat :=
  match p.fb with
  | some fb => fb.fb_id
  | none => 0

/-- igt_plane_get_fb_gem_handle: the bound framebuffer's gem handle, or 0. -/
def igt_plane_get_fb_gem_handle (p : Plane) : Nat :=
  match p.fb with
  | some fb => fb.gem_handle
  | none => 0

/-- The logical plane kind passed to igt_pipe_get_plane (enum igt_plane):
either the distinguished IGT_PLANE_CURSOR or a numeric kind
(IGT_PLANE_PRIMARY = 0, IGT_PLANE_2 = 1, ...). -/
inductive IgtPlaneKind
  | idx (k : Nat)
  | cursor
  deriving DecidableEq, Repr

/-- igt_pipe_get_plane: resolves a logical plane kind to an index into the
plane arena; the C function returns &pipe->planes[idx]. The cursor kind
resolves to the highest populated index; any other kind k is asserted to
satisfy 0 <= k < n_planes (modelled by `none` on violation) and resolves to
index k. -/
def igt_pipe_get_plane (pipe : Pipe) (kind : IgtPlaneKind) : Option Nat :=
  match kind with
  | .cursor => some (pipe.n_planes - 1)
  | .idx k => if k < pipe.n_planes then some k else none

/-- igt_plane_set_fb: binds fb (or NULL) and resets the default geometry;
with a non-NULL fb the destination size and source rectangle default to the
fb dimensions, with NULL everything except the destination position is
zeroed. Sets fb_changed and size_changed. -/
def igt_plane_set_fb (plane : Plane) (fb : Option Fb) : Plane :=
  match fb with
  | some f =>
      { plane with
        fb := some f
        crtc_w := f.width
        crtc_h := f.height
        src_x := 0
        src_y := 0
        src_w := f.width
        src_h := f.height
        fb_changed := true
        size_changed := true }
  | none =>
      { plane with
        fb := none
        src_x := 0
        src_y := 0
        src_w := 0
        src_h := 0
        crtc_w := 0
        crtc_h := 0
        fb_changed := true
        size_changed := true }

/-- igt_plane_set_position: records the destination position. -/
def igt_plane_set_position (plane : Plane) (x y : Int) : Plane :=
  { plane with crtc_x := x, crtc_y := y, position_changed := true }

/-- igt_plane_set_size: records the destination size. -/
def igt_plane_set_size (plane : Plane) (w h : Nat) : Plane :=
  { plane with crtc_w := w, crtc_h := h, size_changed := true }

/-- igt_fb_set_position: records the source position. -/
def igt_fb_set_position (plane : Plane) (x y : Nat) : Plane :=
  { plane with src_x := x, src_y := y, fb_changed := true }

/-- igt_fb_set_size: records the source fetch size. -/
def igt_fb_set_size (plane : Plane) (w h : Nat) : Plane :=
  { plane with src_w := w, src_h := h, fb_changed := true }

/-- igt_plane_set_rotation: records the rotation. -/
def igt_plane_set_rotation (plane : Plane) (r : Nat) : Plane :=
  { plane with rotation := r, rotation_changed := true }

/-! ## Post-commit flag clearing (display_commit_changed) -/

/-- The per-plane part of display_commit_changed: fb/position/size flags are
always cleared; rotation_changed is cleared when
(s != COMMIT_LEGACY || !(plane->is_primary || plane->is_cursor)). -/
def plane_commit_changed (s : CommitStyle) (p : Plane) : Plane :=
  { p with
    fb_changed := false
    position_changed := false
    size_changed := false
    rotation_changed :=
      if s ≠ CommitStyle.legacy ∨ (p.is_primary || p.is_cursor) = false then
        false
      else
        p.rotation_changed }

/-- The per-pipe part of display_commit_changed. -/
def pipe_commit_changed (s : CommitStyle) (pipe : Pipe) : Pipe :=
  { pipe with
    color_mgmt_changed := false
    background_changed := false
    mode_changed :=
      if s ≠ CommitStyle.universal then false else pipe.mode_changed
    planes := pipe.planes.map (plane_commit_changed s) }

/-- The per-output part of display_commit_changed. -/
def output_commit_changed (s : CommitStyle) (o : Output) : Output :=
  { o with
    config :=
      { o.config with
        pipe_changed :=
          if s ≠ CommitStyle.universal then false else o.config.pipe_changed
        connector_scaling_mode_changed :=
          if s = CommitStyle.atomic then false
          else o.config.connector_scaling_mode_changed } }

/-- display_commit_changed: clears the dirty flags a successful non-test-only
commit of style s is responsible for. -/
def display_commit_changed (d : Display) (s : CommitStyle) : Display :=
  { d with
    pipes := d.pipes.map (pipe_commit_changed s)
    outputs := d.outputs.map (output_commit_changed s) }

/-! ## Pre-commit refresh (igt_display_refresh / igt_output_refresh) -/

/-- igt_pipe_get_output: the first output whose pending crtc mask selects
exactly this pipe, if any. -/
def igt_pipe_get_output (d : Display) (pipe : Pipe) : Option Output :=
  d.outputs.find? (fun o => o.pending_crtc_idx_mask == (1 <<< pipe.pipe))

/-- igt_output_get_mode: the resolved (or overridden) default mode. -/
def igt_output_get_mode (o : Output) : Nat := o.config.default_mode

/-- Computes a & ~b on the crtc index masks (the subtraction form is exact
because a &&& b only clears bits that are set in a). -/
def mask_andnot (a b : Nat) : Nat := a - (a &&& b)

/-- igt_output_refresh: re-resolves the connector configuration from the
pending crtc mask (masking out pipes already in use on the final pre-commit
pass), applies the mode override, and claims the resolved pipe in
pipes_in_use on the final pass. Only the resolved part of the config is
overwritten; the dirty flags inside the config persist. The name/property
caching side effects are not modelled. -/
def igt_output_refresh (drv : Driver) (o : Output) (pipes_in_use : Nat)
    (final : Bool) : Output × Nat :=
  let mask :=
    if final then mask_andnot o.pending_crtc_idx_mask pipes_in_use
    else o.pending_crtc_idx_mask
  let rc := drv.resolve o.id mask
  let o2 :=
    { o with
      config :=
        { o.config with
          connector := rc.connector
          pipe := rc.pipe
          crtc_id := rc.crtc_id
          default_mode :=
            if o.use_override_mode then o.override_mode
            else rc.default_mode } }
  let piu2 :=
    match rc.pipe with
    | none => pipes_in_use
    | some p => if final then pipes_in_use ||| (1 <<< p) else pipes_in_use
  (o2, piu2)

/-- The pre-commit consistency assertion of igt_display_refresh: no output
with a non-empty pending crtc mask shares that mask with any other output
("X and Y are both trying to use pipe P"). -/
def refresh_assert_ok (outs : List Output) : Prop :=
  ∀ i, (hi : i < outs.length) →
    (outs.get ⟨i, hi⟩).pending_crtc_idx_mask ≠ 0 →
      ∀ j, (hj : j < outs.length) → j ≠ i →
        (outs.get ⟨i, hi⟩).pending_crtc_idx_mask ≠
          (outs.get ⟨j, hj⟩).pending_crtc_idx_mask

instance (outs : List Output) : Decidable (refresh_assert_ok outs) := by
  unfold refresh_assert_ok
  infer_instance

/-- The final refresh pass over all outputs, threading pipes_in_use. -/
def igt_display_refresh_outputs (drv : Driver) :
    List Output → Nat → List Output × Nat
  | [], piu => ([], piu)
  | o :: rest, piu =>
    let q := igt_output_refresh drv o piu true
    let w := igt_display_refresh_outputs drv rest q.2
    (q.1 :: w.1, w.2)

/-- igt_display_refresh: resets pipes_in_use, asserts that no two outputs
claim the same pipe (`none` models the igt_assert_f firing, before any
driver programming call), then re-resolves every output. -/
def igt_display_refresh (drv : Driver) (d : Display) : Option Display :=
  if refresh_assert_ok d.outputs then
    let q := igt_display_refresh_outputs drv d.outputs 0
    some { d with outputs := q.1, pipes_in_use := q.2 }
  else none

/-! ## CHECK_RETURN -/

/-- Outcome of the CHECK_RETURN(r, fail) macro: continue on r = 0; return r
when r is non-zero and fail_on_error is false; fail the assertion
igt_assert_eq(r, 0) otherwise. -/
inductive CheckStep
  | ok
  | halted (r : Int)
  | failed
  deriving DecidableEq, Repr

/-- CHECK_RETURN(r, fail): { if (r && !fail) return r; igt_assert_eq(r, 0); } -/
def check_return (r : Int) (fail : Bool) : CheckStep :=
  if r = 0 then .ok
  else if fail then .failed
  else .halted r

/-! ## Per-plane commits -/

/-- Prefixes an already-issued call log onto an outcome. -/
def CommitOut.withLog {σ : Type} (log : List LoggedCall) :
    CommitOut σ → CommitOut σ
  | .aborted l => .aborted (log ++ l)
  | .done r st l => .done r st (log ++ l)

/-- The common "issue one driver call, then CHECK_RETURN(ret, fail)" step:
on success continue with `cont`; on a non-fatal error return the code with
the pre-call state `halt_st`; on a fatal error abort. The call is logged as
checked. -/
def issue_checked {σ : Type} (drv : Driver) (call : DriverCall) (fail : Bool)
    (cont : CommitOut σ) (halt_st : σ) : CommitOut σ :=
  match check_return (drv.ret call) fail with
  | .ok => CommitOut.withLog [⟨call, true⟩] cont
  | .halted r => .done r halt_st [⟨call, true⟩]
  | .failed => .aborted [⟨call, true⟩]

/-- igt_drm_plane_commit: programs one plane through the SetPlane ioctl.
Asserts the plane has a DRM plane object and that rotation is supported
whenever rotation_changed is set; disables the plane when the fb is NULL and
fb/size changed, otherwise pushes the full rectangles; finally pushes the
rotation property. The C function does not modify the model state. -/
def igt_drm_plane_commit (drv : Driver) (plane : Plane) (pipe : Pipe)
    (fail : Bool) : CommitOut Unit :=
  if plane.has_drm_plane = false then .aborted []
  else if (plane.supports_rotation || !plane.rotation_changed) = false then
    .aborted []
  else
    let fb_id := igt_plane_get_fb_id plane
    let crtc_id := pipe.crtc_id
    let rot : CommitOut Unit :=
      if plane.rotation_changed then
        issue_checked drv
          (.setProperty plane.drm_plane_id plane.rotation_property
            plane.rotation) fail (.done 0 () []) ()
      else .done 0 () []
    if (plane.fb_changed || plane.size_changed) && (fb_id == 0) then
      issue_checked drv
        (.setPlane plane.drm_plane_id crtc_id fb_id 0 0 0 0
          (IGT_FIXED 0 0) (IGT_FIXED 0 0) (IGT_FIXED 0 0) (IGT_FIXED 0 0))
        fail rot ()
    else if plane.fb_changed || plane.position_changed ||
        plane.size_changed then
      issue_checked drv
        (.setPlane plane.drm_plane_id crtc_id fb_id plane.crtc_x plane.crtc_y
          plane.crtc_w plane.crtc_h
          (IGT_FIXED plane.src_x 0) (IGT_FIXED plane.src_y 0)
          (IGT_FIXED plane.src_w 0) (IGT_FIXED plane.src_h 0))
        fail rot ()
    else rot

/-- igt_cursor_commit_legacy: programs a cursor through the dedicated
SetCursor/MoveCursor ioctls; rotation_changed is not handled here. -/
def igt_cursor_commit_legacy (drv : Driver) (cursor : Plane) (pipe : Pipe)
    (fail : Bool) : CommitOut Unit :=
  let crtc_id := pipe.crtc_id
  let pos : CommitOut Unit :=
    if cursor.position_changed then
      issue_checked drv (.moveCursor crtc_id cursor.crtc_x cursor.crtc_y)
        fail (.done 0 () []) ()
    else .done 0 () []
  if cursor.fb_changed then
    let gem := igt_plane_get_fb_gem_handle cursor
    let call : DriverCall :=
      if gem ≠ 0 then .setCursor crtc_id gem cursor.crtc_w cursor.crtc_h
      else .setCursor crtc_id 0 0 0
    issue_checked drv call fail pos ()
  else pos

/-- igt_primary_plane_commit_legacy: programs mode + primary fb through the
combined SetCrtc call. Asserts (before issuing anything) that the primary is
not windowed (destination origin (0,0)) and not rotation-dirty; returns 0
with no call when no relevant flag is set; on an enabling call with a NULL
driving output the C code dereferences the NULL output while fetching the
mode (modelled as an abort with no call issued). pipe->enabled is updated
only after the call is checked. -/
def igt_primary_plane_commit_legacy (drv : Driver) (d : Display)
    (primary : Plane) (pipe : Pipe) (fail : Bool) : CommitOut Pipe :=
  let output := igt_pipe_get_output d pipe
  if ¬(primary.crtc_x = 0 ∧ primary.crtc_y = 0) then .aborted []
  else if primary.rotation_changed then .aborted []
  else if (!primary.fb_changed && !primary.position_changed &&
      !primary.size_changed) = true then .done 0 pipe []
  else
    let crtc_id := pipe.crtc_id
    let fb_id := igt_plane_get_fb_id primary
    if fb_id = 0 then
      issue_checked drv (.setCrtc crtc_id fb_id 0 0 [] none) fail
        (.done 0 { pipe with enabled := false } []) pipe
    else
      match output with
      | none => .aborted []
      | some out =>
        issue_checked drv
          (.setCrtc crtc_id fb_id primary.src_x primary.src_y [out.id]
            (some (igt_output_get_mode out))) fail
          (.done 0 { pipe with enabled := true } []) pipe

/-- igt_plane_commit: dispatch on plane role and commit style. -/
def igt_plane_commit (drv : Driver) (d : Display) (plane : Plane)
    (pipe : Pipe) (s : CommitStyle) (fail : Bool) : CommitOut Pipe :=
  if plane.is_cursor = true ∧ s = CommitStyle.legacy then
    match igt_cursor_commit_legacy drv plane pipe fail with
    | .aborted l => .aborted l
    | .done r _ l => .done r pipe l
  else if plane.is_primary = true ∧ s = CommitStyle.legacy then
    igt_primary_plane_commit_legacy drv d plane pipe fail
  else
    match igt_drm_plane_commit drv plane pipe fail with
    | .aborted l => .aborted l
    | .done r _ l => .done r pipe l

/-- The plane loop of igt_pipe_commit, threading the (possibly re-enabled)
pipe through successive plane commits and applying CHECK_RETURN after each. -/
def igt_pipe_commit_planes (drv : Driver) (d : Display) (s : CommitStyle)
    (fail : Bool) : List Plane → Pipe → CommitOut Pipe
  | [], pipe => .done 0 pipe []
  | pl :: rest, pipe =>
    match igt_plane_commit drv d pl pipe s fail with
    | .aborted l => .aborted l
    | .done r pipe2 l =>
      match check_return r fail with
      | .halted r2 => .done r2 pipe2 l
      | .failed => .aborted l
      | .ok =>
        match igt_pipe_commit_planes drv d s fail rest pipe2 with
        | .aborted l2 => .aborted (l ++ l2)
        | .done r3 pipe3 l2 => .done r3 pipe3 (l ++ l2)

/-- igt_pipe_commit: pushes background / color-management properties (their
return values are discarded, so the calls are logged unchecked), then commits
every plane of the pipe in order. The trailing wait-for-vblank performs no
programming and is not modelled. -/
def igt_pipe_commit (drv : Driver) (d : Display) (pipe : Pipe)
    (s : CommitStyle) (fail : Bool) : CommitOut Pipe :=
  let log0 : List LoggedCall :=
    (if pipe.background_changed then
      [⟨.setProperty pipe.crtc_id pipe.background_property pipe.background,
         false⟩]
     else []) ++
    (if pipe.color_mgmt_changed then
      [⟨.setProperty pipe.crtc_id pipe.degamma_property pipe.degamma_blob,
         false⟩,
       ⟨.setProperty pipe.crtc_id pipe.ctm_property pipe.ctm_blob, false⟩,
       ⟨.setProperty pipe.crtc_id pipe.gamma_property pipe.gamma_blob,
         false⟩]
     else [])
  match igt_pipe_commit_planes drv d s fail pipe.planes pipe with
  | .aborted l => .aborted (log0 ++ l)
  | .done r p2 l => .done r p2 (log0 ++ l)

/-! ## Atomic commit -/

/-- The igt_assert preconditions of igt_atomic_prepare_plane_commit (a DRM
plane object exists; rotation is supported whenever rotation_changed). The
properties appended to the transaction are not inspected by any claim and are
elided. -/
def atomic_plane_prepare_ok (pl : Plane) : Bool :=
  pl.has_drm_plane && (pl.supports_rotation || !pl.rotation_changed)

/-- igt_pipe_replace_blob: destroys the old blob (asserted) and creates a new
one when there is data (asserted); returns the new blob id (0 when no data),
`none` when one of the asserted blob operations fails. -/
def igt_pipe_replace_blob (drv : Driver) (blob : Nat) (has_data : Bool) :
    Option Nat :=
  if blob ≠ 0 ∧ drv.destroy_blob_ok = false then none
  else if has_data then
    if drv.create_blob_ok then some drv.next_blob_id else none
  else some 0

/-- igt_atomic_prepare_crtc_commit: on mode_changed, replaces the pipe's mode
blob (with mode data when an output drives the pipe, NULL otherwise); the
CRTC properties appended to the transaction are elided. -/
def igt_atomic_prepare_crtc_commit (drv : Driver) (d : Display)
    (pipe : Pipe) : Option Pipe :=
  if pipe.mode_changed then
    match
      igt_pipe_replace_blob drv pipe.mode_blob
        (igt_pipe_get_output d pipe).isSome
    with
    | none => none
    | some b => some { pipe with mode_blob := b }
  else some pipe

/-- The per-pipe preparation loop of igt_atomic_commit: CRTC preparation
followed by the per-plane assertion checks, for every pipe in order. -/
def igt_atomic_prepare_pipes (drv : Driver) (d : Display) :
    List Pipe → Option (List Pipe)
  | [] => some []
  | p :: rest =>
    match igt_atomic_prepare_crtc_commit drv d p with
    | none => none
    | some p2 =>
      if p2.planes.all atomic_plane_prepare_ok then
        match igt_atomic_prepare_pipes drv d rest with
        | none => none
        | some rs => some (p2 :: rs)
      else none

/-- igt_atomic_commit: returns -1 without touching the driver when atomic
mode was not negotiated; otherwise prepares every pipe/plane/connector into
one transaction (connector preparation only populates the request and is
elided) and issues a single atomic-commit driver call whose return value is
handed back to the caller. -/
def igt_atomic_commit (drv : Driver) (d : Display) (flags : Nat) :
    CommitOut Display :=
  if d.is_atomic = false then .done (-1) d []
  else
    match igt_atomic_prepare_pipes drv d d.pipes with
    | none => .aborted []
    | some pipes2 =>
      let d2 := { d with pipes := pipes2 }
      let c : LoggedCall := ⟨.atomicCommit flags, true⟩
      .done (drv.ret c.call) d2 [c]

/-! ## Display commits -/

/-- The pipe loop of do_display_commit for non-atomic styles, counting pipes
that have a driving output (valid_outs) and applying CHECK_RETURN after each
pipe; when the loop completes, returns -1 if no output was valid, otherwise
clears the dirty flags and returns 0. -/
def do_display_commit_pipes (drv : Driver) (d1 : Display) (s : CommitStyle)
    (fail : Bool) : List Pipe → List Pipe → Nat → CommitOut Display
  | [], acc, valid =>
    if valid = 0 then .done (-1) { d1 with pipes := acc.reverse } []
    else .done 0 (display_commit_changed { d1 with pipes := acc.reverse } s) []
  | p :: rest, acc, valid =>
    let valid2 := if (igt_pipe_get_output d1 p).isSome then valid + 1 else valid
    match igt_pipe_commit drv d1 p s fail with
    | .aborted l => .aborted l
    | .done r p2 l =>
      match check_return r fail with
      | .halted r2 => .done r2 { d1 with pipes := acc.reverse ++ p2 :: rest } l
      | .failed => .aborted l
      | .ok =>
        match do_display_commit_pipes drv d1 s fail rest (p2 :: acc) valid2 with
        | .aborted l2 => .aborted (l ++ l2)
        | .done r3 st l2 => .done r3 st (l ++ l2)

/-- do_display_commit: refreshes (running the pre-commit consistency check
before any driver call), then either issues one atomic commit with
ALLOW_MODESET or walks every pipe with the chosen legacy/universal style;
on overall success (return 0) clears the dirty flags via
display_commit_changed. -/
def do_display_commit (d : Display) (s : CommitStyle) (fail_on_error : Bool)
    (drv : Driver) : CommitOut Display :=
  match igt_display_refresh drv d with
  | none => .aborted []
  | some d1 =>
    if s = CommitStyle.atomic then
      match igt_atomic_commit drv d1 DRM_MODE_ATOMIC_ALLOW_MODESET with
      | .aborted l => .aborted l
      | .done r d2 l =>
        match check_return r fail_on_error with
        | .halted r2 => .done r2 d2 l
        | .failed => .aborted l
        | .ok => .done 0 (display_commit_changed d2 s) l
    else
      do_display_commit_pipes drv d1 s fail_on_error d1.pipes [] 0

/-- igt_display_try_commit_atomic: refresh, one atomic commit with the
caller's flags; the dirty flags are cleared only when the commit returned 0
and DRM_MODE_ATOMIC_TEST_ONLY is not among the flags. -/
def igt_display_try_commit_atomic (d : Display) (flags : Nat) (drv : Driver) :
    CommitOut Display :=
  match igt_display_refresh drv d with
  | none => .aborted []
  | some d1 =>
    match igt_atomic_commit drv d1 flags with
    | .aborted l => .aborted l
    | .done r d2 l =>
      if r ≠ 0 ∨ flags &&& DRM_MODE_ATOMIC_TEST_ONLY ≠ 0 then .done r d2 l
      else .done 0 (display_commit_changed d2 CommitStyle.atomic) l

/-- igt_display_commit_atomic: like the try variant but asserts success. -/
def igt_display_commit_atomic (d : Display) (flags : Nat) (drv : Driver) :
    CommitOut Display :=
  match igt_display_try_commit_atomic d flags drv with
  | .aborted l => .aborted l
  | .done r st l => if r = 0 then .done 0 st l else .aborted l

/-- igt_display_commit2: commit with fail_on_error = true. -/
def igt_display_commit2 (d : Display) (s : CommitStyle) (drv : Driver) :
    CommitOut Display :=
  do_display_commit d s true drv

/-- igt_display_try_commit2: commit with fail_on_error = false, so the first
checked error code is returned to the caller. -/
def igt_display_try_commit2 (d : Display) (s : CommitStyle) (drv : Driver) :
    CommitOut Display :=
  do_display_commit d s false drv

/-- igt_display_commit: legacy-style commit2. -/
def igt_display_commit (d : Display) (drv : Driver) : CommitOut Display :=
  igt_display_commit2 d CommitStyle.legacy drv

/-! ## Pipe CRC capture (igt_debugfs pipe-CRC support) -/

/-- One attempted read from the CRC data file: an empty (EAGAIN) read, or a
line that either parses to a (frame, words) record or is malformed
(pipe_crc_init_from_string failing, read_crc returning -EINVAL). -/
inductive CrcRead
  | empty
  | line (crc : Option (Nat × List Nat))
  deriving DecidableEq, Repr

/-- A command written to the CRC control channel. -/
inductive CrcCtlCmd
  | legacy_enable (pipe source : Nat)
  | legacy_disable (pipe : Nat)
  | modern_source (source : Nat)
  deriving DecidableEq, Repr

/-- A pipe-CRC capture session (igt_pipe_crc_t): bound to one pipe and
source, on either the legacy (shared text control file) or modern (per-crtc
descriptor) backend. `ctl_writes` accumulates the control commands written;
`stream` is the sequence of outcomes the data channel will deliver to
successive reads; `crc_open` models the modern data descriptor being open. -/
structure CrcSession where
  pipe : Nat
  source : Nat
  is_legacy : Bool
  crc_open : Bool
  ctl_writes : List CrcCtlCmd
  stream : List CrcRead
  deriving DecidableEq, Repr

/-- igt_pipe_crc_stop: legacy backend writes the "pipe P none" disable
command; modern backend closes the data descriptor. -/
def igt_pipe_crc_stop (s : CrcSession) : CrcSession :=
  if s.is_legacy then
    { s with ctl_writes := s.ctl_writes ++ [.legacy_disable s.pipe] }
  else { s with crc_open := false }

/-- igt_pipe_crc_do_start: stops first to clear lingering state, writes the
enable command for the session's pipe/source, and on the modern backend
reopens the per-crtc data file (`open_ok = false` models the open failing
with EINVAL, making do_start return false). -/
def igt_pipe_crc_do_start (open_ok : Bool) (s : CrcSession) :
    Option CrcSession :=
  let s1 := igt_pipe_crc_stop s
  let s2 :=
    if s1.is_legacy then
      { s1 with ctl_writes := s1.ctl_writes ++ [.legacy_enable s1.pipe s1.source] }
    else { s1 with ctl_writes := s1.ctl_writes ++ [.modern_source s1.source] }
  if s2.is_legacy then some s2
  else if open_ok then some { s2 with crc_open := true } else none

/-- read_one_crc: loops (sleeping) until read_crc returns non-zero, i.e.
skips empty reads and consumes the first line (well-formed or not). `none`
models the C loop blocking forever on an exhausted stream. -/
def read_one_crc : List CrcRead → Option (Option (Nat × List Nat) × List CrcRead)
  | [] => none
  | .empty :: rest => read_one_crc rest
  | .line c :: rest => some (c, rest)

/-- igt_pipe_crc_start: asserts do_start succeeded; on the legacy backend
additionally reads and discards two CRCs (the known-unreliable early
samples) before returning. -/
def igt_pipe_crc_start (open_ok : Bool) (s : CrcSession) : Option CrcSession :=
  match igt_pipe_crc_do_start open_ok s with
  | none => none
  | some s1 =>
    if s1.is_legacy then
      match read_one_crc s1.stream with
      | none => none
      | some q1 =>
        match read_one_crc q1.2 with
        | none => none
        | some q2 => some { s1 with stream := q2.2 }
    else some s1

/-! ## Change-tracker projections and log queries -/

/-- The four per-plane dirty flags of the Change Tracker. -/
def Plane.dirty (p : Plane) : Bool × Bool × Bool × Bool :=
  (p.fb_changed, p.position_changed, p.size_changed, p.rotation_changed)

/-- All dirty flags of a pipe (its planes' flags plus the pipe-level
mode/background/color-management flags). -/
def Pipe.dirty (pipe : Pipe) :
    List (Bool × Bool × Bool × Bool) × Bool × Bool × Bool :=
  (pipe.planes.map Plane.dirty, pipe.mode_changed, pipe.background_changed,
    pipe.color_mgmt_changed)

/-- The per-output dirty flags (pipe_changed, scaling-mode changed). -/
def Output.dirty (o : Output) : Bool × Bool :=
  (o.config.pipe_changed, o.config.connector_scaling_mode_changed)

/-- The entire Change Tracker state of a display. -/
def Display.dirty (d : Display) :
    List (List (Bool × Bool × Bool × Bool) × Bool × Bool × Bool) ×
      List (Bool × Bool) :=
  (d.pipes.map Pipe.dirty, d.outputs.map Output.dirty)

/-- The first call in an issued-call log whose return value is checked via
CHECK_RETURN and comes back non-zero from the driver. -/
def firstCheckedErr (drv : Driver) (calls : List LoggedCall) :
    Option LoggedCall :=
  calls.find? (fun c => c.checked && decide (drv.ret c.call ≠ 0))

/-! ## Concrete fixtures used by witnesses and counterexamples -/

/-- A plane with the given arena index and roles, no bound fb, zero geometry
and no dirty flags. -/
def mkPlane (idx : Nat) (prim cur : Bool) : Plane :=
  { index := idx
    is_primary := prim
    is_cursor := cur
    has_drm_plane := true
    drm_plane_id := 10 + idx
    supports_rotation := true
    rotation_property := 5
    fb := none
    rotation := 0
    src_x := 0
    src_y := 0
    src_w := 0
    src_h := 0
    crtc_x := 0
    crtc_y := 0
    crtc_w := 0
    crtc_h := 0
    fb_changed := false
    position_changed := false
    size_changed := false
    rotation_changed := false }

/-- A pipe with the given index and planes and no pipe-level dirty flags. -/
def mkPipe (idx : Nat) (planes : List Plane) : Pipe :=
  { pipe := idx
    crtc_id := 100 + idx
    enabled := true
    planes := planes
    mode_changed := false
    mode_blob := 0
    background := 0
    background_changed := false
    background_property := 1
    degamma_property := 2
    ctm_property := 3
    gamma_property := 4
    degamma_blob := 0
    ctm_blob := 0
    gamma_blob := 0
    color_mgmt_changed := false }

/-- An unresolved connector configuration with no dirty flags. -/
def mkConfig : OutputConfig :=
  { connector := false
    pipe := none
    crtc_id := 0
    default_mode := 0
    connector_scaling_mode := 0
    connector_scaling_mode_changed := false
    pipe_changed := false }

/-- An output with the given id and pending crtc mask. -/
def mkOutput (oid mask : Nat) : Output :=
  { id := oid
    pending_crtc_idx_mask := mask
    use_override_mode := false
    override_mode := 0
    config := mkConfig }

/-- A driver that accepts every call, resolves every connector to pipe 0
with crtc id 100 and mode token 7, and always succeeds at blob management. -/
def drv0 : Driver :=
  { ret := fun _ => 0
    resolve := fun _ _ =>
      { connector := true, pipe := some 0, crtc_id := 100, default_mode := 7 }
    destroy_blob_ok := true
    create_blob_ok := true
    next_blob_id := 1 }

/-- C1 scenario: one pipe holding a clean primary and a rotation-dirty
cursor, driven by one output, committed legacy-style. -/
def c1_primary : Plane := mkPlane 0 true false

def c1_cursor : Plane := { mkPlane 1 false true with rotation_changed := true }

def c1_pipe : Pipe := mkPipe 0 [c1_primary, c1_cursor]

def c1_out : Output := mkOutput 50 1

def c1_display : Display :=
  { pipes := [c1_pipe], outputs := [c1_out], pipes_in_use := 0,
    is_atomic := false }

def c1_out_resolved : Output :=
  { c1_out with
    config :=
      { mkConfig with
        connector := true, pipe := some 0, crtc_id := 100,
        default_mode := 7 } }

def c1_after : Display :=
  { c1_display with outputs := [c1_out_resolved], pipes_in_use := 1 }

/-- C1 second scenario: an fb-dirty primary committed atomically. -/
def c1b_plane : Plane := { mkPlane 0 true false with fb_changed := true }

def c1b_pipe : Pipe := mkPipe 0 [c1b_plane]

def c1b_display : Display :=
  { pipes := [c1b_pipe], outputs := [], pipes_in_use := 0, is_atomic := true }

def c1b_after : Display :=
  { c1b_display with
    pipes := [{ c1b_pipe with planes := [{ c1b_plane with fb_changed := false }] }] }

/-- C2 scenario: two outputs both claiming pipe 0. -/
def c2_display : Display :=
  { pipes := [mkPipe 0 [mkPlane 0 true false]]
    outputs := [mkOutput 50 1, mkOutput 51 1]
    pipes_in_use := 0
    is_atomic := true }

/-- C3 scenario: a plane with a non-zero destination position. -/
def c3_plane : Plane := { mkPlane 0 true false with crtc_x := 5, crtc_y := 7 }

/-- C4 scenario: a pipe with a primary and a cursor slot. -/
def c4_pipe : Pipe := mkPipe 0 [mkPlane 0 true false, mkPlane 1 false true]

/-- C5 scenario: an atomic-capable display with an fb-dirty primary,
committed with TEST_ONLY. -/
def c5_plane : Plane := { mkPlane 0 true false with fb_changed := true }

def c5_pipe : Pipe := mkPipe 0 [c5_plane]

def c5_out : Output := mkOutput 50 1

def c5_display : Display :=
  { pipes := [c5_pipe], outputs := [c5_out], pipes_in_use := 0,
    is_atomic := true }

def c5_st : Display :=
  { c5_display with
    outputs :=
      [{ c5_out with
         config :=
           { mkConfig with
             connector := true, pipe := some 0, crtc_id := 100,
             default_mode := 7 } }]
    pipes_in_use := 1 }

/-- C6 scenario: a driver that rejects SetPlane with -22 (EINVAL). -/
def drvErr : Driver :=
  { drv0 with
    ret := fun c =>
      match c with
      | .setPlane _ _ _ _ _ _ _ _ _ _ _ => -22
      | _ => 0 }

def c6_plane : Plane := { mkPlane 0 true false with fb_changed := true }

def c6_pipe : Pipe := mkPipe 0 [c6_plane]

def c6_out : Output := mkOutput 50 1

def c6_display : Display :=
  { pipes := [c6_pipe], outputs := [c6_out], pipes_in_use := 0,
    is_atomic := false }

def c6_st : Display :=
  { c6_display with
    outputs :=
      [{ c6_out with
         config :=
           { mkConfig with
             connector := true, pipe := some 0, crtc_id := 100,
             default_mode := 7 } }]
    pipes_in_use := 1 }

def c6_call : LoggedCall :=
  ⟨.setPlane 10 100 0 0 0 0 0 (IGT_FIXED 0 0) (IGT_FIXED 0 0) (IGT_FIXED 0 0)
     (IGT_FIXED 0 0), true⟩

/-- C7 scenario: a windowed, fb-dirty primary under a legacy commit. -/
def c7_primary : Plane :=
  { mkPlane 0 true false with crtc_x := 3, fb_changed := true }

def c7_pipe : Pipe := mkPipe 0 [c7_primary]

def c7_display : Display :=
  { pipes := [c7_pipe], outputs := [mkOutput 50 1], pipes_in_use := 0,
    is_atomic := false }

/-- C9 scenario: a legacy CRC session with one empty read interleaved in the
incoming records, and a modern session. -/
def c9_session : CrcSession :=
  { pipe := 0, source := 3, is_legacy := true, crc_open := false,
    ctl_writes := [],
    stream :=
      [.line (some (1, [11])), .empty, .line (some (2, [22])),
       .line (some (3, [33]))] }

def c9m_session : CrcSession := { c9_session with is_legacy := false }

/-- The error-halting contract of a fail_on_error = false commit: a return
value of 0 means no checked call failed, and if some checked call failed
then the first such call is the last call issued and its return code is the
commit's return value. -/
def ErrHalt (drv : Driver) (r : Int) (calls : List LoggedCall) : Prop :=
  (r = 0 → firstCheckedErr drv calls = none) ∧
  ∀ c, firstCheckedErr drv calls = some c →
    r = drv.ret c.call ∧ calls.getLast? = some c

/-! # Theorems -/

/-! ## Basic facts about CHECK_RETURN and logs -/

theorem check_return_ok_iff (r : Int) (fail : Bool) :
    check_return r fail = CheckStep.ok ↔ r = 0 := by
  unfold check_return
  split_ifs with h0 h1
  · simp [h0]
  · simp [h0]
  · simp [h0]

theorem check_return_halted (r : Int) (fail : Bool) (r2 : Int)
    (h : check_return r fail = CheckStep.halted r2) : r2 = r ∧ r ≠ 0 := by
  unfold check_return at h
  split_ifs at h with h0 h1
  cases h
  exact ⟨rfl, h0⟩

theorem firstCheckedErr_nil (drv : Driver) : firstCheckedErr drv [] = none :=
  rfl

theorem firstCheckedErr_append (drv : Driver) (l1 l2 : List LoggedCall) :
    firstCheckedErr drv (l1 ++ l2) =
      (firstCheckedErr drv l1).or (firstCheckedErr drv l2) := by
  unfold firstCheckedErr
  exact List.find?_append

theorem firstCheckedErr_cons_clean (drv : Driver) (c : LoggedCall)
    (l : List LoggedCall) (h : c.checked = false ∨ drv.ret c.call = 0) :
    firstCheckedErr drv (c :: l) = firstCheckedErr drv l := by
  unfold firstCheckedErr
  rcases h with h | h <;> simp [List.find?_cons, h]

theorem firstCheckedErr_cons_hit (drv : Driver) (c : LoggedCall)
    (l : List LoggedCall) (h1 : c.checked = true) (h2 : drv.ret c.call ≠ 0) :
    firstCheckedErr drv (c :: l) = some c := by
  unfold firstCheckedErr
  simp [List.find?_cons, h1, h2]

theorem firstCheckedErr_ne_nil (drv : Driver) (l : List LoggedCall)
    (c : LoggedCall) (h : firstCheckedErr drv l = some c) : l ≠ [] := by
  intro he
  rw [he] at h
  cases h

theorem errHalt_nil (drv : Driver) (r : Int) : ErrHalt drv r [] := by
  constructor
  · intro _; rfl
  · intro c hc; cases hc

theorem errHalt_cons_clean (drv : Driver) (r : Int) (c : LoggedCall)
    (l : List LoggedCall) (hc : c.checked = false ∨ drv.ret c.call = 0)
    (h : ErrHalt drv r l) : ErrHalt drv r (c :: l) := by
  constructor
  · intro h0
    rw [firstCheckedErr_cons_clean drv c l hc]
    exact h.1 h0
  · intro x hx
    rw [firstCheckedErr_cons_clean drv c l hc] at hx
    obtain ⟨ha, hb⟩ := h.2 x hx
    refine ⟨ha, ?_⟩
    have hne : l ≠ [] := firstCheckedErr_ne_nil drv l x hx
    calc (c :: l).getLast? = ([c] ++ l).getLast? := by rfl
      _ = l.getLast? := List.getLast?_append_of_ne_nil [c] hne
      _ = some x := hb

theorem errHalt_append_clean (drv : Driver) (l1 : List LoggedCall)
    (h1 : firstCheckedErr drv l1 = none) (r : Int) (l2 : List LoggedCall)
    (h2 : ErrHalt drv r l2) : ErrHalt drv r (l1 ++ l2) := by
  constructor
  · intro h0
    rw [firstCheckedErr_append, h1, Option.none_or]
    exact h2.1 h0
  · intro c hc
    rw [firstCheckedErr_append, h1, Option.none_or] at hc
    obtain ⟨ha, hb⟩ := h2.2 c hc
    refine ⟨ha, ?_⟩
    have hne : l2 ≠ [] := firstCheckedErr_ne_nil drv l2 c hc
    rw [List.getLast?_append_of_ne_nil l1 hne]
    exact hb

theorem errHalt_single_hit (drv : Driver) (c : LoggedCall)
    (h1 : c.checked = true) (h2 : drv.ret c.call ≠ 0) :
    ErrHalt drv (drv.ret c.call) [c] := by
  constructor
  · intro h0
    exact absurd h0 h2
  · intro x hx
    rw [firstCheckedErr_cons_hit drv c [] h1 h2] at hx
    injection hx with hx
    subst hx
    exact ⟨rfl, rfl⟩

/-! ## C3: igt_plane_set_fb with a NULL framebuffer -/

/-- C3 counterexample: igt_plane_set_fb with a NULL framebuffer does not
zero the destination rectangle's x/y — for a plane previously positioned at
(5,7) the destination origin is untouched, so the claim that all eight
source/destination rectangle values become zero is false. -/
theorem c3_counterexample :
    ¬((igt_plane_set_fb c3_plane none).crtc_x = 0 ∧
      (igt_plane_set_fb c3_plane none).crtc_y = 0) := by
  decide

/-- C3 (amended): igt_plane_set_fb with a NULL framebuffer zeroes the source
rectangle (x,y,w,h) and the destination size (w,h), leaves the destination
position (crtc_x, crtc_y) unchanged, and sets both fb_changed and
size_changed. -/
theorem c3_amended_set_fb_null (p : Plane) :
    (igt_plane_set_fb p none).src_x = 0 ∧
    (igt_plane_set_fb p none).src_y = 0 ∧
    (igt_plane_set_fb p none).src_w = 0 ∧
    (igt_plane_set_fb p none).src_h = 0 ∧
    (igt_plane_set_fb p none).crtc_w = 0 ∧
    (igt_plane_set_fb p none).crtc_h = 0 ∧
    (igt_plane_set_fb p none).crtc_x = p.crtc_x ∧
    (igt_plane_set_fb p none).crtc_y = p.crtc_y ∧
    (igt_plane_set_fb p none).fb_changed = true ∧
    (igt_plane_set_fb p none).size_changed = true := by
  simp [igt_plane_set_fb]

/-! ## C4: igt_pipe_get_plane slot resolution -/

/-- C4: for every pipe with n_planes populated slots, igt_pipe_get_plane
resolves the cursor kind to the slot at index n_planes - 1 regardless of the
plane count, and every other kind k with k < n_planes to the slot at index
k; being a pure function of the pipe, repeated calls return the same slot. -/
theorem c4_get_plane_slots (pipe : Pipe) (k : Nat) (hk : k < pipe.n_planes) :
    igt_pipe_get_plane pipe IgtPlaneKind.cursor = some (pipe.n_planes - 1) ∧
    igt_pipe_get_plane pipe (IgtPlaneKind.idx k) = some k := by
  constructor
  · rfl
  · simp [igt_pipe_get_plane, hk]

/-- C4 witness: on a two-slot pipe the cursor kind resolves to slot 1 and
kind 0 to slot 0. -/
theorem c4_witness :
    igt_pipe_get_plane c4_pipe IgtPlaneKind.cursor = some 1 ∧
    igt_pipe_get_plane c4_pipe (IgtPlaneKind.idx 0) = some 0 :=
  c4_get_plane_slots c4_pipe 0 (by decide)

/-! ## C7: legacy primary-plane commit preconditions -/

/-- C7: under the legacy protocol, for a primary plane with any dirty flag
set, if the destination origin is not (0,0) or rotation_changed is set, the
commit aborts on the corresponding igt_assert with no driver call issued
(the SetCrtc call is unreachable). -/
theorem c7_primary_legacy_asserts (drv : Driver) (d : Display)
    (primary : Plane) (pipe : Pipe) (fail : Bool)
    (_hdirty : primary.fb_changed = true ∨ primary.position_changed = true ∨
      primary.size_changed = true ∨ primary.rotation_changed = true)
    (hviol : ¬(primary.crtc_x = 0 ∧ primary.crtc_y = 0) ∨
      primary.rotation_changed = true) :
    igt_primary_plane_commit_legacy drv d primary pipe fail =
      CommitOut.aborted [] := by
  unfold igt_primary_plane_commit_legacy
  rcases hviol with h | h
  · rw [if_pos h]
  · by_cases hc : primary.crtc_x = 0 ∧ primary.crtc_y = 0
    · rw [if_neg (by simpa using hc), if_pos h]
    · rw [if_pos hc]

/-- C7 witness: a windowed (crtc_x = 3) fb-dirty primary aborts the legacy
commit before any driver call. -/
theorem c7_witness :
    igt_primary_plane_commit_legacy drv0 c7_display c7_primary c7_pipe true =
      CommitOut.aborted [] :=
  c7_primary_legacy_asserts drv0 c7_display c7_primary c7_pipe true
    (by decide) (by decide)

/-! ## C8: which flags display_commit_changed clears -/

/-- C8: after a successful commit, display_commit_changed clears the
per-pipe mode_changed and per-output pipe_changed flags exactly when the
style is not COMMIT_UNIVERSAL (under COMMIT_UNIVERSAL both retain their
values), while the pipe-level background and color-management flags are
cleared for every style. -/
theorem c8_commit_changed_mode_flags (d : Display) (s : CommitStyle)
    (i j : Nat) :
    ((display_commit_changed d s).pipes[i]?).map Pipe.mode_changed =
      (d.pipes[i]?).map (fun p =>
        if s = CommitStyle.universal then p.mode_changed else false) ∧
    ((display_commit_changed d s).outputs[j]?).map
        (fun o => o.config.pipe_changed) =
      (d.outputs[j]?).map (fun o =>
        if s = CommitStyle.universal then o.config.pipe_changed else false) ∧
    ((display_commit_changed d s).pipes[i]?).map Pipe.background_changed =
      (d.pipes[i]?).map (fun _ => false) ∧
    ((display_commit_changed d s).pipes[i]?).map Pipe.color_mgmt_changed =
      (d.pipes[i]?).map (fun _ => false) := by
  refine ⟨?_, ?_, ?_, ?_⟩ <;> cases s <;>
    simp only [display_commit_changed, List.getElem?_map, Option.map_map] <;>
    cases d.pipes[i]? <;> cases d.outputs[j]? <;>
      simp [pipe_commit_changed, output_commit_changed, Function.comp]

/-! ## C9: CRC capture start discards early legacy samples -/

/-- C9: igt_pipe_crc_start writes the enable command (after a defensive
stop), and on the legacy backend then reads and discards the first two CRC
records of the stream before returning, so the next record a caller reads is
not one of the early samples; on the modern backend no reads are consumed. -/
theorem c9_crc_start_discards (open_ok : Bool) (s : CrcSession)
    (c1 c2 : Option (Nat × List Nat)) (r1 r2 : List CrcRead) :
    (s.is_legacy = true → read_one_crc s.stream = some (c1, r1) →
      read_one_crc r1 = some (c2, r2) →
      igt_pipe_crc_start open_ok s =
        some { s with
          ctl_writes := s.ctl_writes ++
            [CrcCtlCmd.legacy_disable s.pipe,
             CrcCtlCmd.legacy_enable s.pipe s.source]
          stream := r2 }) ∧
    (s.is_legacy = false → open_ok = true →
      igt_pipe_crc_start open_ok s =
        some { s with
          crc_open := true
          ctl_writes := s.ctl_writes ++ [CrcCtlCmd.modern_source s.source] }) := by
  constructor
  · intro hleg h1 h2
    simp [igt_pipe_crc_start, igt_pipe_crc_do_start, igt_pipe_crc_stop, hleg,
      h1, h2]
  · intro hleg hopen
    simp [igt_pipe_crc_start, igt_pipe_crc_do_start, igt_pipe_crc_stop, hleg,
      hopen]

/-- C9 witness: a legacy session discards exactly the records (1,[11]) and
(2,[22]) (skipping an interleaved empty read), leaving (3,[33]) as the first
record a caller will read; a modern session's stream is untouched. -/
theorem c9_witness :
    igt_pipe_crc_start true c9_session =
      some { c9_session with
        ctl_writes := [CrcCtlCmd.legacy_disable 0, CrcCtlCmd.legacy_enable 0 3]
        stream := [CrcRead.line (some (3, [33]))] } ∧
    igt_pipe_crc_start true c9m_session =
      some { c9m_session with
        crc_open := true
        ctl_writes := [CrcCtlCmd.modern_source 3] } := by
  constructor
  · exact (c9_crc_start_discards true c9_session (some (1, [11]))
      (some (2, [22])) [CrcRead.empty, CrcRead.line (some (2, [22])),
        CrcRead.line (some (3, [33]))] [CrcRead.line (some (3, [33]))]).1
      rfl rfl rfl
  · exact (c9_crc_start_discards true c9m_session none none [] []).2 rfl rfl

/-! ## C10: igt_plane_set_fb with a framebuffer -/

/-- C10: igt_plane_set_fb with a non-NULL framebuffer resets the source
position to (0,0) and sets both the source size and the destination size to
the framebuffer's dimensions, overwriting whatever igt_fb_set_position,
igt_fb_set_size or igt_plane_set_size recorded earlier, while the
destination position and the rotation are left unchanged. -/
theorem c10_set_fb_nonnull (p : Plane) (x y w h w2 h2 : Nat) (fb : Fb) :
    ((igt_plane_set_fb (igt_plane_set_size
        (igt_fb_set_size (igt_fb_set_position p x y) w h) w2 h2)
        (some fb)).src_x = 0 ∧
      (igt_plane_set_fb (igt_plane_set_size
        (igt_fb_set_size (igt_fb_set_position p x y) w h) w2 h2)
        (some fb)).src_y = 0 ∧
      (igt_plane_set_fb (igt_plane_set_size
        (igt_fb_set_size (igt_fb_set_position p x y) w h) w2 h2)
        (some fb)).src_w = fb.width ∧
      (igt_plane_set_fb (igt_plane_set_size
        (igt_fb_set_size (igt_fb_set_position p x y) w h) w2 h2)
        (some fb)).src_h = fb.height) ∧
    ((igt_plane_set_fb (igt_plane_set_size
        (igt_fb_set_size (igt_fb_set_position p x y) w h) w2 h2)
        (some fb)).crtc_w = fb.width ∧
      (igt_plane_set_fb (igt_plane_set_size
        (igt_fb_set_size (igt_fb_set_position p x y) w h) w2 h2)
        (some fb)).crtc_h = fb.height) ∧
    ((igt_plane_set_fb (igt_plane_set_size
        (igt_fb_set_size (igt_fb_set_position p x y) w h) w2 h2)
        (some fb)).crtc_x = p.crtc_x ∧
      (igt_plane_set_fb (igt_plane_set_size
        (igt_fb_set_size (igt_fb_set_position p x y) w h) w2 h2)
        (some fb)).crtc_y = p.crtc_y ∧
      (igt_plane_set_fb (igt_plane_set_size
        (igt_fb_set_size (igt_fb_set_position p x y) w h) w2 h2)
        (some fb)).rotation = p.rotation) := by
  simp [igt_plane_set_fb, igt_plane_set_size, igt_fb_set_size,
    igt_fb_set_position]

/-! ## C2: no two outputs may claim the same pipe -/

/-- C2: for two distinct outputs whose pending bindings both select pipe p,
every commit operation (do_display_commit of any style and fail_on_error,
and igt_display_try_commit_atomic with any flags) fails the pre-commit
consistency assertion in igt_display_refresh before any driver call is
issued (the abort carries an empty call log), so the second binding never
silently overrides the first. -/
theorem c2_pipe_mutual_exclusion (d : Display) (s : CommitStyle) (fail : Bool)
    (drv : Driver) (flags : Nat) (i j p : Nat)
    (hi : i < d.outputs.length) (hj : j < d.outputs.length) (hij : i ≠ j)
    (hA : (d.outputs.get ⟨i, hi⟩).pending_crtc_idx_mask = 1 <<< p)
    (hB : (d.outputs.get ⟨j, hj⟩).pending_crtc_idx_mask = 1 <<< p) :
    do_display_commit d s fail drv = CommitOut.aborted [] ∧
    igt_display_try_commit_atomic d flags drv = CommitOut.aborted [] := by
  have hnz : (1 : Nat) <<< p ≠ 0 := by
    simp [Nat.shiftLeft_eq]
  have hbad : ¬ refresh_assert_ok d.outputs := by
    intro hok
    exact (hok i hi (by rw [hA]; exact hnz) j hj (Ne.symm hij))
      (by rw [hA, hB])
  have hre : igt_display_refresh drv d = none := by
    unfold igt_display_refresh
    rw [if_neg hbad]
  constructor
  · unfold do_display_commit
    rw [hre]
  · unfold igt_display_try_commit_atomic
    rw [hre]

/-- C2 witness: on a display with two outputs both pending on pipe 0, both
commit entry points abort with no driver call. -/
theorem c2_witness :
    do_display_commit c2_display CommitStyle.legacy true drv0 =
      CommitOut.aborted [] ∧
    igt_display_try_commit_atomic c2_display DRM_MODE_ATOMIC_ALLOW_MODESET
      drv0 = CommitOut.aborted [] :=
  c2_pipe_mutual_exclusion c2_display CommitStyle.legacy true drv0
    DRM_MODE_ATOMIC_ALLOW_MODESET 0 1 0 (by decide) (by decide) (by decide)
    (by decide) (by decide)

/-! ## Dirty-state preservation lemmas -/

theorem output_refresh_fst_dirty (drv : Driver) (o : Output) (piu : Nat)
    (final : Bool) :
    Output.dirty (igt_output_refresh drv o piu final).1 = Output.dirty o :=
  rfl

theorem refresh_outputs_fst_dirty (drv : Driver) (outs : List Output)
    (piu : Nat) :
    (igt_display_refresh_outputs drv outs piu).1.map Output.dirty =
      outs.map Output.dirty := by
  induction outs generalizing piu with
  | nil => rfl
  | cons o rest ih =>
    simp [igt_display_refresh_outputs, ih, output_refresh_fst_dirty]

theorem refresh_dirty (drv : Driver) (d d1 : Display)
    (h : igt_display_refresh drv d = some d1) :
    Display.dirty d1 = Display.dirty d ∧ d1.pipes = d.pipes := by
  unfold igt_display_refresh at h
  by_cases hok : refresh_assert_ok d.outputs
  · rw [if_pos hok] at h
    injection h with h
    subst h
    refine ⟨?_, rfl⟩
    unfold Display.dirty
    simp [refresh_outputs_fst_dirty]
  · rw [if_neg hok] at h
    cases h

theorem prepare_crtc_shape (drv : Driver) (d : Display) (p p2 : Pipe)
    (h : igt_atomic_prepare_crtc_commit drv d p = some p2) :
    Pipe.dirty p2 = Pipe.dirty p := by
  unfold igt_atomic_prepare_crtc_commit at h
  by_cases hm : p.mode_changed = true
  · rw [if_pos hm] at h
    cases hb : igt_pipe_replace_blob drv p.mode_blob
        (igt_pipe_get_output d p).isSome with
    | none => rw [hb] at h; cases h
    | some b =>
      rw [hb] at h
      injection h with h
      subst h
      rfl
  · rw [if_neg hm] at h
    injection h with h
    subst h
    rfl

theorem prepare_pipes_dirty (drv : Driver) (d : Display) :
    ∀ ps ps2, igt_atomic_prepare_pipes drv d ps = some ps2 →
      ps2.map Pipe.dirty = ps.map Pipe.dirty := by
  intro ps
  induction ps with
  | nil =>
    intro ps2 h
    injection h with h
    subst h
    rfl
  | cons p rest ih =>
    intro ps2 h
    unfold igt_atomic_prepare_pipes at h
    cases hc : igt_atomic_prepare_crtc_commit drv d p with
    | none =>
      simp only [hc] at h
      cases h
    | some p2 =>
      simp only [hc] at h
      by_cases hall : p2.planes.all atomic_plane_prepare_ok = true
      · rw [if_pos hall] at h
        cases hr : igt_atomic_prepare_pipes drv d rest with
        | none =>
          simp only [hr] at h
          cases h
        | some rs =>
          simp only [hr, Option.some.injEq] at h
          subst h
          simp [prepare_crtc_shape drv d p p2 hc, ih rs hr]
      · rw [if_neg hall] at h
        cases h

theorem atomic_commit_dirty (drv : Driver) (d : Display) (flags : Nat)
    (r : Int) (d2 : Display) (l : List LoggedCall)
    (h : igt_atomic_commit drv d flags = CommitOut.done r d2 l) :
    Display.dirty d2 = Display.dirty d := by
  unfold igt_atomic_commit at h
  by_cases hat : d.is_atomic = false
  · rw [if_pos hat] at h
    injection h with h1 h2 h3
    subst h2
    rfl
  · rw [if_neg hat] at h
    cases hprep : igt_atomic_prepare_pipes drv d d.pipes with
    | none =>
      simp only [hprep] at h
      cases h
    | some pipes2 =>
      simp only [hprep] at h
      injection h with h1 h2 h3
      subst h2
      unfold Display.dirty
      simp [prepare_pipes_dirty drv d d.pipes pipes2 hprep]

/-! ## C5: TEST_ONLY atomic commits clear nothing -/

/-- C5: an atomic commit issued through igt_display_try_commit_atomic with
DRM_MODE_ATOMIC_TEST_ONLY among the flags leaves the whole Change Tracker
state of the display unchanged — no dirty flag of any pipe, plane or output
is cleared — whether the driver accepted or rejected the transaction. -/
theorem c5_test_only_preserves_dirty (d : Display) (flags : Nat)
    (drv : Driver) (r : Int) (st : Display) (calls : List LoggedCall)
    (htest : flags &&& DRM_MODE_ATOMIC_TEST_ONLY ≠ 0)
    (h : igt_display_try_commit_atomic d flags drv =
      CommitOut.done r st calls) :
    Display.dirty st = Display.dirty d := by
  unfold igt_display_try_commit_atomic at h
  cases hre : igt_display_refresh drv d with
  | none =>
    simp only [hre] at h
    cases h
  | some d1 =>
    simp only [hre] at h
    cases hac : igt_atomic_commit drv d1 flags with
    | aborted l =>
      simp only [hac] at h
      cases h
    | done r2 d2 l2 =>
      simp only [hac] at h
      rw [if_pos (Or.inr htest)] at h
      injection h with h1 h2 h3
      subst h2
      calc Display.dirty d2
          = Display.dirty d1 := atomic_commit_dirty drv d1 flags r2 d2 l2 hac
        _ = Display.dirty d := (refresh_dirty drv d d1 hre).1

/-- C5 witness: a TEST_ONLY commit of an fb-dirty primary leaves the dirty
state equal to the pre-commit state. -/
theorem c5_witness : Display.dirty c5_st = Display.dirty c5_display :=
  c5_test_only_preserves_dirty c5_display DRM_MODE_ATOMIC_TEST_ONLY drv0 0
    c5_st [⟨.atomicCommit DRM_MODE_ATOMIC_TEST_ONLY, true⟩] (by decide)
    (by rfl)

/-! ## Success-shape lemmas: a commit returning 0 ran display_commit_changed -/

theorem commit_pipes_success_shape (drv : Driver) (d1 : Display)
    (s : CommitStyle) (fail : Bool) :
    ∀ (todo acc : List Pipe) (valid : Nat) (st : Display)
      (calls : List LoggedCall),
      do_display_commit_pipes drv d1 s fail todo acc valid =
        CommitOut.done 0 st calls →
      ∃ d2, st = display_commit_changed d2 s := by
  intro todo
  induction todo with
  | nil =>
    intro acc valid st calls h
    unfold do_display_commit_pipes at h
    by_cases hv : valid = 0
    · rw [if_pos hv] at h
      injection h with h1 h2 h3
      exact absurd h1 (by decide)
    · rw [if_neg hv] at h
      injection h with h1 h2 h3
      exact ⟨_, h2.symm⟩
  | cons p rest ih =>
    intro acc valid st calls h
    unfold do_display_commit_pipes at h
    cases hq : igt_pipe_commit drv d1 p s fail with
    | aborted l =>
      simp only [hq] at h
      cases h
    | done r p2 l =>
      simp only [hq] at h
      cases hcr : check_return r fail with
      | halted r2 =>
        simp only [hcr] at h
        injection h with h1 h2 h3
        obtain ⟨he, hne⟩ := check_return_halted r fail r2 hcr
        exact absurd (he.symm.trans h1) hne
      | failed =>
        simp only [hcr] at h
        cases h
      | ok =>
        simp only [hcr] at h
        split at h
        · cases h
        · rename_i r3 st3 l3 hrec
          injection h with h1 h2 h3
          subst h2
          exact ih _ _ _ _ (h1 ▸ hrec)

theorem do_display_commit_success_shape (d : Display) (s : CommitStyle)
    (fail : Bool) (drv : Driver) (st : Display) (calls : List LoggedCall)
    (h : do_display_commit d s fail drv = CommitOut.done 0 st calls) :
    ∃ d2, st = display_commit_changed d2 s := by
  unfold do_display_commit at h
  cases hre : igt_display_refresh drv d with
  | none =>
    simp only [hre] at h
    cases h
  | some d1 =>
    simp only [hre] at h
    by_cases hs : s = CommitStyle.atomic
    · rw [if_pos hs] at h
      cases hac : igt_atomic_commit drv d1 DRM_MODE_ATOMIC_ALLOW_MODESET with
      | aborted l =>
        simp only [hac] at h
        cases h
      | done r d2 l =>
        simp only [hac] at h
        cases hcr : check_return r fail with
        | halted r2 =>
          simp only [hcr] at h
          injection h with h1 h2 h3
          obtain ⟨he, hne⟩ := check_return_halted r fail r2 hcr
          exact absurd (he.symm.trans h1) hne
        | failed =>
          simp only [hcr] at h
          cases h
        | ok =>
          simp only [hcr] at h
          injection h with h1 h2 h3
          exact ⟨d2, h2.symm⟩
    · rw [if_neg hs] at h
      exact commit_pipes_success_shape drv d1 s fail d1.pipes [] 0 st calls h

theorem try_commit_atomic_success_shape (d : Display) (flags : Nat)
    (drv : Driver) (st : Display) (calls : List LoggedCall)
    (htest : flags &&& DRM_MODE_ATOMIC_TEST_ONLY = 0)
    (h : igt_display_try_commit_atomic d flags drv =
      CommitOut.done 0 st calls) :
    ∃ d2, st = display_commit_changed d2 CommitStyle.atomic := by
  unfold igt_display_try_commit_atomic at h
  cases hre : igt_display_refresh drv d with
  | none =>
    simp only [hre] at h
    cases h
  | some d1 =>
    simp only [hre] at h
    cases hac : igt_atomic_commit drv d1 flags with
    | aborted l =>
      simp only [hac] at h
      cases h
    | done r d2 l =>
      simp only [hac] at h
      by_cases hcond : r ≠ 0 ∨ flags &&& DRM_MODE_ATOMIC_TEST_ONLY ≠ 0
      · rw [if_pos hcond] at h
        injection h with h1 h2 h3
        rcases hcond with hr | ht
        · exact absurd h1 hr
        · exact absurd htest ht
      · rw [if_neg hcond] at h
        injection h with h1 h2 h3
        exact ⟨d2, h2.symm⟩

theorem plane_commit_changed_flags (s : CommitStyle) (p : Plane) :
    (plane_commit_changed s p).fb_changed = false ∧
    (plane_commit_changed s p).position_changed = false ∧
    (plane_commit_changed s p).size_changed = false ∧
    ((s = CommitStyle.legacy ∧ ((plane_commit_changed s p).is_primary ||
        (plane_commit_changed s p).is_cursor) = true) ∨
      (plane_commit_changed s p).rotation_changed = false) := by
  refine ⟨rfl, rfl, rfl, ?_⟩
  by_cases h1 : s = CommitStyle.legacy
  · by_cases h2 : (p.is_primary || p.is_cursor) = true
    · exact Or.inl ⟨h1, h2⟩
    · right
      simp [plane_commit_changed, h2]
  · right
    simp [plane_commit_changed, h1]

theorem commit_changed_plane_flags (d2 : Display) (s : CommitStyle) :
    ∀ pp ∈ (display_commit_changed d2 s).pipes, ∀ pl ∈ pp.planes,
      pl.fb_changed = false ∧ pl.position_changed = false ∧
      pl.size_changed = false ∧
      ((s = CommitStyle.legacy ∧ (pl.is_primary || pl.is_cursor) = true) ∨
        pl.rotation_changed = false) := by
  intro pp hpp pl hpl
  simp only [display_commit_changed, List.mem_map] at hpp
  obtain ⟨p0, hp0, hpp⟩ := hpp
  subst hpp
  simp only [pipe_commit_changed, List.mem_map] at hpl
  obtain ⟨pl0, hpl0, hpl⟩ := hpl
  subst hpl
  exact plane_commit_changed_flags s pl0

/-! ## C1: per-plane dirty flags after a successful commit -/

/-- C1 counterexample: a successful legacy-style commit (igt_display_commit2
returning 0) of a display whose cursor plane has rotation_changed set leaves
that flag set afterwards, so the claim that all four per-plane dirty flags
are false after every successful non-test-only commit regardless of commit
style is false. -/
theorem c1_counterexample :
    igt_display_commit2 c1_display CommitStyle.legacy drv0 =
      CommitOut.done 0 c1_after [] ∧
    c1_after.pipes.map
        (fun pp => pp.planes.map (fun pl => pl.rotation_changed)) =
      [[false, true]] := by
  constructor
  · rfl
  · rfl

/-- C1 (amended): after a commit that succeeds (returns 0) and is not
test-only, every plane's fb/position/size dirty flags are false, and the
rotation-changed flag is also false except under the legacy style for
primary and cursor planes (whose rotation flag the legacy path does not
clear); for atomic commits through igt_display_try_commit_atomic without
TEST_ONLY, all four flags are false. -/
theorem c1_flags_after_successful_commit :
    (∀ (d : Display) (s : CommitStyle) (fail : Bool) (drv : Driver)
        (st : Display) (calls : List LoggedCall),
      do_display_commit d s fail drv = CommitOut.done 0 st calls →
      ∀ pp ∈ st.pipes, ∀ pl ∈ pp.planes,
        pl.fb_changed = false ∧ pl.position_changed = false ∧
        pl.size_changed = false ∧
        ((s = CommitStyle.legacy ∧ (pl.is_primary || pl.is_cursor) = true) ∨
          pl.rotation_changed = false)) ∧
    (∀ (d : Display) (flags : Nat) (drv : Driver) (st : Display)
        (calls : List LoggedCall),
      flags &&& DRM_MODE_ATOMIC_TEST_ONLY = 0 →
      igt_display_try_commit_atomic d flags drv = CommitOut.done 0 st calls →
      ∀ pp ∈ st.pipes, ∀ pl ∈ pp.planes,
        pl.fb_changed = false ∧ pl.position_changed = false ∧
        pl.size_changed = false ∧ pl.rotation_changed = false) := by
  constructor
  · intro d s fail drv st calls h pp hpp pl hpl
    obtain ⟨d2, hst⟩ := do_display_commit_success_shape d s fail drv st calls h
    subst hst
    exact commit_changed_plane_flags d2 s pp hpp pl hpl
  · intro d flags drv st calls htest h pp hpp pl hpl
    obtain ⟨d2, hst⟩ :=
      try_commit_atomic_success_shape d flags drv st calls htest h
    subst hst
    have hall := commit_changed_plane_flags d2 CommitStyle.atomic pp hpp pl hpl
    rcases hall.2.2.2 with ⟨hleg, _⟩ | hrot
    · cases hleg
    · exact ⟨hall.1, hall.2.1, hall.2.2.1, hrot⟩

/-- C1 witness: the amended theorem applied to a concrete successful legacy
commit (primary plane of the c1 scenario) and a concrete successful atomic
commit (the c1b scenario's primary plane). -/
theorem c1_witness :
    (c1_primary.fb_changed = false ∧ c1_primary.position_changed = false ∧
      c1_primary.size_changed = false ∧
      ((CommitStyle.legacy = CommitStyle.legacy ∧
        (c1_primary.is_primary || c1_primary.is_cursor) = true) ∨
        c1_primary.rotation_changed = false)) ∧
    (({ c1b_plane with fb_changed := false } : Plane).fb_changed = false ∧
      ({ c1b_plane with fb_changed := false } : Plane).position_changed =
        false ∧
      ({ c1b_plane with fb_changed := false } : Plane).size_changed = false ∧
      ({ c1b_plane with fb_changed := false } : Plane).rotation_changed =
        false) := by
  constructor
  · exact c1_flags_after_successful_commit.1 c1_display CommitStyle.legacy
      true drv0 c1_after [] (by rfl) c1_pipe (by decide) c1_primary (by decide)
  · exact c1_flags_after_successful_commit.2 c1b_display
      DRM_MODE_ATOMIC_ALLOW_MODESET drv0 c1b_after
      [⟨.atomicCommit DRM_MODE_ATOMIC_ALLOW_MODESET, true⟩] (by decide)
      (by rfl)
      ({ c1b_pipe with planes := [{ c1b_plane with fb_changed := false }] })
      (by decide) ({ c1b_plane with fb_changed := false }) (by decide)

/-! ## Error-halting invariants for fail_on_error = false commits -/

theorem issue_checked_done {σ : Type} (drv : Driver) (call : DriverCall)
    (cont : CommitOut σ) (halt_st : σ) (r : Int) (st : σ)
    (l : List LoggedCall)
    (h : issue_checked drv call false cont halt_st = CommitOut.done r st l) :
    (drv.ret call = 0 ∧ ∃ l2, cont = CommitOut.done r st l2 ∧
      l = ⟨call, true⟩ :: l2) ∨
    (r = drv.ret call ∧ r ≠ 0 ∧ st = halt_st ∧ l = [⟨call, true⟩]) := by
  unfold issue_checked at h
  cases hcr : check_return (drv.ret call) false with
  | ok =>
    simp only [hcr] at h
    have h0 := (check_return_ok_iff (drv.ret call) false).mp hcr
    cases cont with
    | aborted l2 =>
      simp only [CommitOut.withLog] at h
      cases h
    | done r2 st2 l2 =>
      simp only [CommitOut.withLog, List.singleton_append] at h
      injection h with h1 h2 h3
      subst h1
      subst h2
      exact Or.inl ⟨h0, l2, rfl, h3.symm⟩
  | halted r2 =>
    simp only [hcr] at h
    obtain ⟨he, hne⟩ := check_return_halted _ _ _ hcr
    injection h with h1 h2 h3
    subst h1
    refine Or.inr ⟨he, ?_, h2.symm, h3.symm⟩
    rw [he]
    exact hne
  | failed =>
    simp only [hcr] at h
    cases h

theorem issue_checked_errHalt {σ : Type} (drv : Driver) (call : DriverCall)
    (cont : CommitOut σ) (halt_st : σ) (r : Int) (st : σ)
    (l : List LoggedCall)
    (hcont : ∀ r2 st2 l2, cont = CommitOut.done r2 st2 l2 → ErrHalt drv r2 l2)
    (h : issue_checked drv call false cont halt_st = CommitOut.done r st l) :
    ErrHalt drv r l := by
  rcases issue_checked_done drv call cont halt_st r st l h with
    ⟨h0, l2, hc, hl⟩ | ⟨h1, h2, h3, hl⟩
  · subst hl
    exact errHalt_cons_clean drv r _ l2 (Or.inr h0) (hcont r st l2 hc)
  · subst hl
    rw [h1]
    exact errHalt_single_hit drv ⟨call, true⟩ rfl (h1 ▸ h2)

theorem issue_checked_st {σ : Type} (drv : Driver) (call : DriverCall)
    (fail : Bool) (cont : CommitOut σ) (halt_st : σ) (r : Int) (st : σ)
    (l : List LoggedCall)
    (h : issue_checked drv call fail cont halt_st = CommitOut.done r st l) :
    (∃ r2 l2, cont = CommitOut.done r2 st l2) ∨ st = halt_st := by
  unfold issue_checked at h
  cases hcr : check_return (drv.ret call) fail with
  | ok =>
    simp only [hcr] at h
    cases cont with
    | aborted l2 =>
      simp only [CommitOut.withLog] at h
      cases h
    | done r2 st2 l2 =>
      simp only [CommitOut.withLog] at h
      injection h with h1 h2 h3
      subst h2
      exact Or.inl ⟨r2, l2, rfl⟩
  | halted r2 =>
    simp only [hcr] at h
    injection h with h1 h2 h3
    exact Or.inr h2.symm
  | failed =>
    simp only [hcr] at h
    cases h

theorem rot_step_errHalt (drv : Driver) (cond : Bool) (call : DriverCall)
    (r : Int) (u : Unit) (l : List LoggedCall)
    (h : (if cond = true then
        issue_checked drv call false (CommitOut.done 0 () []) ()
      else CommitOut.done 0 () []) = CommitOut.done r u l) :
    ErrHalt drv r l := by
  by_cases hc : cond = true
  · rw [if_pos hc] at h
    refine issue_checked_errHalt drv call _ () r u l ?_ h
    intro r2 st2 l2 h2
    injection h2 with a b c
    subst a
    subst c
    exact errHalt_nil drv 0
  · rw [if_neg hc] at h
    injection h with a b c
    subst a
    subst c
    exact errHalt_nil drv 0

theorem drm_plane_commit_errHalt (drv : Driver) (plane : Plane) (pipe : Pipe)
    (r : Int) (u : Unit) (l : List LoggedCall)
    (h : igt_drm_plane_commit drv plane pipe false = CommitOut.done r u l) :
    ErrHalt drv r l := by
  unfold igt_drm_plane_commit at h
  by_cases h1 : plane.has_drm_plane = false
  · rw [if_pos h1] at h
    cases h
  · rw [if_neg h1] at h
    by_cases h2 : (plane.supports_rotation || !plane.rotation_changed) = false
    · rw [if_pos h2] at h
      cases h
    · rw [if_neg h2] at h
      by_cases hf1 : ((plane.fb_changed || plane.size_changed) &&
          (igt_plane_get_fb_id plane == 0)) = true
      · rw [if_pos hf1] at h
        refine issue_checked_errHalt drv _ _ () r u l ?_ h
        intro r2 st2 l2 h3
        exact rot_step_errHalt drv plane.rotation_changed _ r2 st2 l2 h3
      · rw [if_neg hf1] at h
        by_cases hf2 : (plane.fb_changed || plane.position_changed ||
            plane.size_changed) = true
        · rw [if_pos hf2] at h
          refine issue_checked_errHalt drv _ _ () r u l ?_ h
          intro r2 st2 l2 h3
          exact rot_step_errHalt drv plane.rotation_changed _ r2 st2 l2 h3
        · rw [if_neg hf2] at h
          exact rot_step_errHalt drv plane.rotation_changed _ r u l h

theorem cursor_commit_errHalt (drv : Driver) (cursor : Plane) (pipe : Pipe)
    (r : Int) (u : Unit) (l : List LoggedCall)
    (h : igt_cursor_commit_legacy drv cursor pipe false =
      CommitOut.done r u l) :
    ErrHalt drv r l := by
  unfold igt_cursor_commit_legacy at h
  by_cases hf : cursor.fb_changed = true
  · rw [if_pos hf] at h
    refine issue_checked_errHalt drv _ _ () r u l ?_ h
    intro r2 st2 l2 h3
    exact rot_step_errHalt drv cursor.position_changed _ r2 st2 l2 h3
  · rw [if_neg hf] at h
    exact rot_step_errHalt drv cursor.position_changed _ r u l h

theorem primary_commit_errHalt (drv : Driver) (d : Display) (primary : Plane)
    (pipe : Pipe) (r : Int) (p2 : Pipe) (l : List LoggedCall)
    (h : igt_primary_plane_commit_legacy drv d primary pipe false =
      CommitOut.done r p2 l) :
    ErrHalt drv r l := by
  unfold igt_primary_plane_commit_legacy at h
  by_cases h1 : ¬(primary.crtc_x = 0 ∧ primary.crtc_y = 0)
  · rw [if_pos h1] at h
    cases h
  · rw [if_neg h1] at h
    by_cases h2 : primary.rotation_changed = true
    · rw [if_pos h2] at h
      cases h
    · rw [if_neg h2] at h
      by_cases h3 : (!primary.fb_changed && !primary.position_changed &&
          !primary.size_changed) = true
      · rw [if_pos h3] at h
        injection h with a b c
        subst a
        subst c
        exact errHalt_nil drv 0
      · rw [if_neg h3] at h
        by_cases h4 : igt_plane_get_fb_id primary = 0
        · rw [if_pos h4] at h
          refine issue_checked_errHalt drv _ _ pipe r p2 l ?_ h
          intro r2 st2 l2 h5
          injection h5 with a b c
          subst a
          subst c
          exact errHalt_nil drv 0
        · rw [if_neg h4] at h
          cases ho : igt_pipe_get_output d pipe with
          | none =>
            simp only [ho] at h
            cases h
          | some out =>
            simp only [ho] at h
            refine issue_checked_errHalt drv _ _ pipe r p2 l ?_ h
            intro r2 st2 l2 h5
            injection h5 with a b c
            subst a
            subst c
            exact errHalt_nil drv 0

theorem plane_commit_errHalt (drv : Driver) (d : Display) (plane : Plane)
    (pipe : Pipe) (s : CommitStyle) (r : Int) (p2 : Pipe)
    (l : List LoggedCall)
    (h : igt_plane_commit drv d plane pipe s false = CommitOut.done r p2 l) :
    ErrHalt drv r l := by
  unfold igt_plane_commit at h
  by_cases hc : plane.is_cursor = true ∧ s = CommitStyle.legacy
  · rw [if_pos hc] at h
    cases hq : igt_cursor_commit_legacy drv plane pipe false with
    | aborted l2 =>
      simp only [hq] at h
      cases h
    | done r2 u2 l2 =>
      simp only [hq] at h
      injection h with a b c
      subst a
      subst c
      exact cursor_commit_errHalt drv plane pipe r2 u2 l2 hq
  · rw [if_neg hc] at h
    by_cases hp : plane.is_primary = true ∧ s = CommitStyle.legacy
    · rw [if_pos hp] at h
      exact primary_commit_errHalt drv d plane pipe r p2 l h
    · rw [if_neg hp] at h
      cases hq : igt_drm_plane_commit drv plane pipe false with
      | aborted l2 =>
        simp only [hq] at h
        cases h
      | done r2 u2 l2 =>
        simp only [hq] at h
        injection h with a b c
        subst a
        subst c
        exact drm_plane_commit_errHalt drv plane pipe r2 u2 l2 hq

theorem plane_commit_pipe_dirty (drv : Driver) (d : Display) (plane : Plane)
    (pipe : Pipe) (s : CommitStyle) (fail : Bool) (r : Int) (p2 : Pipe)
    (l : List LoggedCall)
    (h : igt_plane_commit drv d plane pipe s fail = CommitOut.done r p2 l) :
    Pipe.dirty p2 = Pipe.dirty pipe := by
  unfold igt_plane_commit at h
  by_cases hc : plane.is_cursor = true ∧ s = CommitStyle.legacy
  · rw [if_pos hc] at h
    cases hq : igt_cursor_commit_legacy drv plane pipe fail with
    | aborted l2 =>
      simp only [hq] at h
      cases h
    | done r2 u2 l2 =>
      simp only [hq] at h
      injection h with a b c
      subst b
      rfl
  · rw [if_neg hc] at h
    by_cases hp : plane.is_primary = true ∧ s = CommitStyle.legacy
    · rw [if_pos hp] at h
      unfold igt_primary_plane_commit_legacy at h
      by_cases h1 : ¬(plane.crtc_x = 0 ∧ plane.crtc_y = 0)
      · rw [if_pos h1] at h
        cases h
      · rw [if_neg h1] at h
        by_cases h2 : plane.rotation_changed = true
        · rw [if_pos h2] at h
          cases h
        · rw [if_neg h2] at h
          by_cases h3 : (!plane.fb_changed && !plane.position_changed &&
              !plane.size_changed) = true
          · rw [if_pos h3] at h
            injection h with a b c
            subst b
            rfl
          · rw [if_neg h3] at h
            by_cases h4 : igt_plane_get_fb_id plane = 0
            · rw [if_pos h4] at h
              rcases issue_checked_st drv _ fail _ pipe r p2 l h with
                ⟨r2, l2, hc2⟩ | hst
              · injection hc2 with a b c
                subst b
                rfl
              · subst hst
                rfl
            · rw [if_neg h4] at h
              cases ho : igt_pipe_get_output d pipe with
              | none =>
                simp only [ho] at h
                cases h
              | some out =>
                simp only [ho] at h
                rcases issue_checked_st drv _ fail _ pipe r p2 l h with
                  ⟨r2, l2, hc2⟩ | hst
                · injection hc2 with a b c
                  subst b
                  rfl
                · subst hst
                  rfl
    · rw [if_neg hp] at h
      cases hq : igt_drm_plane_commit drv plane pipe fail with
      | aborted l2 =>
        simp only [hq] at h
        cases h
      | done r2 u2 l2 =>
        simp only [hq] at h
        injection h with a b c
        subst b
        rfl

theorem firstCheckedErr_unchecked (drv : Driver) (l : List LoggedCall)
    (h : ∀ c ∈ l, c.checked = false) : firstCheckedErr drv l = none := by
  induction l with
  | nil => rfl
  | cons c rest ih =>
    rw [firstCheckedErr_cons_clean drv c rest (Or.inl (h c (by simp)))]
    exact ih (fun x hx => h x (by simp [hx]))

theorem pipe_commit_planes_inv (drv : Driver) (d : Display)
    (s : CommitStyle) :
    ∀ (pls : List Plane) (pipe : Pipe) (r : Int) (p3 : Pipe)
      (l : List LoggedCall),
      igt_pipe_commit_planes drv d s false pls pipe = CommitOut.done r p3 l →
      ErrHalt drv r l ∧ Pipe.dirty p3 = Pipe.dirty pipe := by
  intro pls
  induction pls with
  | nil =>
    intro pipe r p3 l h
    injection h with a b c
    subst a
    subst b
    subst c
    exact ⟨errHalt_nil drv 0, rfl⟩
  | cons pl rest ih =>
    intro pipe r p3 l h
    unfold igt_pipe_commit_planes at h
    cases hq : igt_plane_commit drv d pl pipe s false with
    | aborted l1 =>
      simp only [hq] at h
      cases h
    | done r1 pipe2 l1 =>
      simp only [hq] at h
      have hDq := plane_commit_pipe_dirty drv d pl pipe s false r1 pipe2 l1 hq
      cases hcr : check_return r1 false with
      | failed =>
        simp only [hcr] at h
        cases h
      | halted r2 =>
        simp only [hcr] at h
        injection h with a b c
        subst a
        subst b
        subst c
        obtain ⟨he, hne⟩ := check_return_halted r1 false r2 hcr
        rw [he]
        exact ⟨plane_commit_errHalt drv d pl pipe s r1 pipe2 l1 hq, hDq⟩
      | ok =>
        have h0 : r1 = 0 := (check_return_ok_iff r1 false).mp hcr
        simp only [hcr] at h
        split at h
        · cases h
        · rename_i r3 p4 l2 hrec
          injection h with a b c
          subst a
          subst b
          subst c
          obtain ⟨ih1, ih2⟩ := ih pipe2 r3 p4 l2 hrec
          have hE := plane_commit_errHalt drv d pl pipe s r1 pipe2 l1 hq
          exact ⟨errHalt_append_clean drv l1 (hE.1 h0) r3 l2 ih1,
            ih2.trans hDq⟩

theorem pipe_commit_inv (drv : Driver) (d : Display) (pipe : Pipe)
    (s : CommitStyle) (r : Int) (p2 : Pipe) (l : List LoggedCall)
    (h : igt_pipe_commit drv d pipe s false = CommitOut.done r p2 l) :
    ErrHalt drv r l ∧ Pipe.dirty p2 = Pipe.dirty pipe := by
  unfold igt_pipe_commit at h
  cases hq : igt_pipe_commit_planes drv d s false pipe.planes pipe with
  | aborted l1 =>
    simp only [hq] at h
    cases h
  | done r1 p1 l1 =>
    simp only [hq] at h
    injection h with a b c
    subst a
    subst b
    subst c
    obtain ⟨h1, h2⟩ := pipe_commit_planes_inv drv d s pipe.planes pipe r1 p1
      l1 hq
    refine ⟨errHalt_append_clean drv _ ?_ r1 l1 h1, h2⟩
    refine firstCheckedErr_unchecked drv _ ?_
    intro c hc
    by_cases hbg : pipe.background_changed = true
    · by_cases hcm : pipe.color_mgmt_changed = true
      · rw [if_pos hbg, if_pos hcm] at hc
        fin_cases hc <;> rfl
      · rw [if_pos hbg, if_neg hcm] at hc
        fin_cases hc <;> rfl
    · by_cases hcm : pipe.color_mgmt_changed = true
      · rw [if_neg hbg, if_pos hcm] at hc
        fin_cases hc <;> rfl
      · rw [if_neg hbg, if_neg hcm] at hc
        fin_cases hc

theorem commit_pipes_inv (drv : Driver) (d1 : Display) (s : CommitStyle) :
    ∀ (todo acc : List Pipe) (valid : Nat) (r : Int) (st : Display)
      (l : List LoggedCall),
      do_display_commit_pipes drv d1 s false todo acc valid =
        CommitOut.done r st l →
      ErrHalt drv r l ∧
      (r ≠ 0 →
        st.pipes.map Pipe.dirty = (acc.reverse ++ todo).map Pipe.dirty ∧
        st.outputs = d1.outputs) := by
  intro todo
  induction todo with
  | nil =>
    intro acc valid r st l h
    unfold do_display_commit_pipes at h
    by_cases hv : valid = 0
    · rw [if_pos hv] at h
      injection h with a b c
      subst a
      subst b
      subst c
      refine ⟨errHalt_nil drv _, fun _ => ⟨?_, rfl⟩⟩
      simp
    · rw [if_neg hv] at h
      injection h with a b c
      subst a
      subst b
      subst c
      exact ⟨errHalt_nil drv 0, fun hne => absurd rfl hne⟩
  | cons p rest ih =>
    intro acc valid r st l h
    unfold do_display_commit_pipes at h
    cases hq : igt_pipe_commit drv d1 p s false with
    | aborted l1 =>
      simp only [hq] at h
      cases h
    | done r1 p2 l1 =>
      simp only [hq] at h
      obtain ⟨hE, hD⟩ := pipe_commit_inv drv d1 p s r1 p2 l1 hq
      cases hcr : check_return r1 false with
      | failed =>
        simp only [hcr] at h
        cases h
      | halted r2 =>
        simp only [hcr] at h
        injection h with a b c
        subst a
        subst b
        subst c
        obtain ⟨he, hne⟩ := check_return_halted r1 false r2 hcr
        subst he
        refine ⟨hE, fun _ => ⟨?_, rfl⟩⟩
        simp [hD]
      | ok =>
        have h0 : r1 = 0 := (check_return_ok_iff r1 false).mp hcr
        simp only [hcr] at h
        split at h
        · cases h
        · rename_i r3 st3 l2 hrec
          injection h with a b c
          subst a
          subst b
          subst c
          obtain ⟨ih1, ih2⟩ := ih _ _ _ _ _ hrec
          refine ⟨errHalt_append_clean drv l1 (hE.1 h0) r3 l2 ih1, ?_⟩
          intro hr
          obtain ⟨ihm, iho⟩ := ih2 hr
          refine ⟨?_, iho⟩
          rw [ihm]
          simp [hD]

theorem atomic_commit_errHalt (drv : Driver) (d : Display) (flags : Nat)
    (r : Int) (d2 : Display) (l : List LoggedCall)
    (h : igt_atomic_commit drv d flags = CommitOut.done r d2 l) :
    ErrHalt drv r l := by
  unfold igt_atomic_commit at h
  by_cases hat : d.is_atomic = false
  · rw [if_pos hat] at h
    injection h with a b c
    subst a
    subst c
    exact errHalt_nil drv (-1)
  · rw [if_neg hat] at h
    cases hprep : igt_atomic_prepare_pipes drv d d.pipes with
    | none =>
      simp only [hprep] at h
      cases h
    | some pipes2 =>
      simp only [hprep] at h
      injection h with a b c
      subst a
      subst c
      by_cases hret : drv.ret (.atomicCommit flags) = 0
      · exact errHalt_cons_clean drv _ _ [] (Or.inr hret)
          (errHalt_nil drv _)
      · exact errHalt_single_hit drv ⟨.atomicCommit flags, true⟩ rfl hret

theorem do_display_commit_inv (d : Display) (s : CommitStyle) (drv : Driver)
    (r : Int) (st : Display) (l : List LoggedCall)
    (h : do_display_commit d s false drv = CommitOut.done r st l) :
    ErrHalt drv r l ∧ (r ≠ 0 → Display.dirty st = Display.dirty d) := by
  unfold do_display_commit at h
  cases hre : igt_display_refresh drv d with
  | none =>
    simp only [hre] at h
    cases h
  | some d1 =>
    simp only [hre] at h
    obtain ⟨hdd, hdp⟩ := refresh_dirty drv d d1 hre
    by_cases hs : s = CommitStyle.atomic
    · rw [if_pos hs] at h
      cases hac : igt_atomic_commit drv d1 DRM_MODE_ATOMIC_ALLOW_MODESET with
      | aborted l1 =>
        simp only [hac] at h
        cases h
      | done r1 d2 l1 =>
        simp only [hac] at h
        have hE := atomic_commit_errHalt drv d1 _ r1 d2 l1 hac
        have hD := atomic_commit_dirty drv d1 _ r1 d2 l1 hac
        cases hcr : check_return r1 false with
        | failed =>
          simp only [hcr] at h
          cases h
        | halted r2 =>
          simp only [hcr] at h
          injection h with a b c
          subst a
          subst b
          subst c
          obtain ⟨he, hne⟩ := check_return_halted r1 false r2 hcr
          subst he
          exact ⟨hE, fun _ => hD.trans hdd⟩
        | ok =>
          simp only [hcr] at h
          injection h with a b c
          subst a
          subst b
          subst c
          have h0 : r1 = 0 := (check_return_ok_iff r1 false).mp hcr
          refine ⟨⟨fun _ => hE.1 h0, ?_⟩, fun hne => absurd rfl hne⟩
          intro c hc
          rw [hE.1 h0] at hc
          cases hc
    · rw [if_neg hs] at h
      obtain ⟨hE, hD⟩ := commit_pipes_inv drv d1 s d1.pipes [] 0 r st l h
      refine ⟨hE, fun hr => ?_⟩
      obtain ⟨hm, ho⟩ := hD hr
      have hst : Display.dirty st = Display.dirty d1 := by
        unfold Display.dirty
        rw [ho]
        simp only [List.reverse_nil, List.nil_append] at hm
        rw [hm]
      exact hst.trans hdd

/-! ## C6: fail_on_error = false halts at the first error -/

/-- C6: when a commit is invoked through igt_display_try_commit2
(fail_on_error false) and some checked driver call returns a non-zero code,
the commit returns the code of the first such call, that call is the last
call issued (no further programming happens), and no dirty flag is cleared
— flag clearing runs only when the whole commit returned zero. -/
theorem c6_try_commit2_first_error (d : Display) (s : CommitStyle)
    (drv : Driver) (r : Int) (st : Display) (calls : List LoggedCall)
    (c : LoggedCall)
    (h : igt_display_try_commit2 d s drv = CommitOut.done r st calls)
    (hc : firstCheckedErr drv calls = some c) :
    r = drv.ret c.call ∧ calls.getLast? = some c ∧
      Display.dirty st = Display.dirty d := by
  obtain ⟨hE, hD⟩ := do_display_commit_inv d s drv r st calls h
  obtain ⟨h1, h2⟩ := hE.2 c hc
  have hr : r ≠ 0 := by
    intro h0
    rw [hE.1 h0] at hc
    cases hc
  exact ⟨h1, h2, hD hr⟩

/-- C6 witness: a universal-style try-commit against a driver rejecting
SetPlane with -22 returns -22, issues exactly that one (last) call, and
leaves the dirty state untouched. -/
theorem c6_witness :
    (-22 : Int) = drvErr.ret c6_call.call ∧
    [c6_call].getLast? = some c6_call ∧
    Display.dirty c6_st = Display.dirty c6_display :=
  c6_try_commit2_first_error c6_display CommitStyle.universal drvErr (-22)
    c6_st [c6_call] c6_call (by rfl) (by rfl)

end IgtKms
